import Mathlib

/-!
Verification of the backup-cycle and retention engine of
`src/onedrive_versioned_backup_interactive/main.py`.

The development shallowly embeds the core of the script:

* `STAMP_RE = re.compile(r"^\d{4}-\d{2}-\d{2}_\d{2}-\d{2}$")` and its use
  through `re.match` — `stampShape` / `stampReMatch`.  Two pieces of real
  `re` semantics are kept: `\d` in a `str` pattern (no `re.ASCII`)
  matches every Unicode decimal digit (category Nd), not just `0-9`, and
  `$` (no `re.MULTILINE`) also matches just before a single trailing
  newline;
* `dt.datetime.strptime(name, "%Y-%m-%d_%H-%M")` — `parseStamp`,
  modelling the field regexes `_strptime.TimeRE` compiles (`%Y` is
  `\d\d\d\d`, `%m` is `1[0-2]|0[1-9]|[1-9]`, `%d` is
  `3[01]|[12]\d|0[1-9]|[1-9]| [1-9]`, `%H` is `2[0-3]|[0-1]\d|\d`, `%M`
  is `[0-5]\d|\d`), the whole-string-consumed check ("unconverted data
  remains") and the `datetime` constructor's range validation (year
  1-9999, month, day against the month length and leap years);
* `dt.datetime.now().strftime("%Y-%m-%d_%H-%M")` — `timestamp_stamp`
  applied to an explicit clock reading; the platform `strftime` does not
  zero-pad `%Y`, so years below 1000 yield fewer than four digits
  (year 5 formats as `"5-01-01_00-00"`);
* datetime comparison and `timedelta(days=...)` arithmetic, carried out
  on absolute minute counts via the proleptic-Gregorian ordinal (the same
  `_ymd2ord` computation CPython's `datetime` uses);
* `prune_old_backups`, `run_once`, `headless_run`, `parse_args` and
  `prompt_int_with_default`.

Filesystem effects are made explicit: a directory listing is a list of
`Entry` (name and is-directory flag), the clock readings taken by
`timestamp_stamp` and by `prune_old_backups` are parameters, and
`run_once` returns a trace recording its exit code, whether the mirror
tool ran, which directories were created and which entries the prune
pass deleted.
-/

namespace OneDriveBackup

/-- A timestamp at minute granularity, the information content of a
snapshot-folder name `YYYY-MM-DD_HH-MM`. -/
structure Stamp where
  year : Nat
  month : Nat
  day : Nat
  hour : Nat
  minute : Nat
deriving DecidableEq, Repr

/-- First code points of the runs of ten consecutive decimal digits that
make up Unicode category Nd (Unicode 14.0, as shipped with CPython 3.11's
`unicodedata`; every Nd character sits in such a run at the offset equal
to its digit value).  This is the character class Python's `\d` matches
in a `str` pattern without `re.ASCII`, and the digits `int()` accepts. -/
def ndBases : List Nat :=
  [48, 1632, 1776, 1984, 2406, 2534, 2662, 2790, 2918, 3046, 3174, 3302,
   3430, 3558, 3664, 3792, 3872, 4160, 4240, 6112, 6160, 6470, 6608, 6784,
   6800, 6992, 7088, 7232, 7248, 42528, 43216, 43264, 43472, 43504, 43600,
   44016, 65296, 66720, 68912, 69734, 69872, 69942, 70096, 70384, 70736,
   70864, 71248, 71360, 71472, 71904, 72016, 72784, 73040, 73120, 92768,
   92864, 93008, 120782, 120792, 120802, 120812, 120822, 123200, 123632,
   125264, 130032]

/-- The base of the Nd run a character belongs to, when it is a Unicode
decimal digit. -/
def ndBase (c : Char) : Option Nat :=
  ndBases.find? (fun b => b ≤ c.toNat && c.toNat < b + 10)

/-- Python `\d` on a character: any Unicode decimal digit. -/
def isPyDigit (c : Char) : Bool := (ndBase c).isSome

/-- Decimal value of a Unicode digit (what `int()` assigns it); 0 on
non-digits, which no caller reaches. -/
def pyDigitVal (c : Char) : Nat :=
  match ndBase c with
  | some b => c.toNat - b
  | none => 0

/-- The anchored body of `STAMP_RE`: exactly 4 digits, `-`, 2 digits, `-`,
2 digits, `_`, 2 digits, `-`, 2 digits, and nothing else — where a digit
is anything Python's `\d` matches, i.e. any Unicode decimal digit. -/
def stampShape (cs : List Char) : Bool :=
  cs.length == 16 &&
  isPyDigit (cs.getD 0 ' ') && isPyDigit (cs.getD 1 ' ') &&
  isPyDigit (cs.getD 2 ' ') && isPyDigit (cs.getD 3 ' ') &&
  (cs.getD 4 ' ' == '-') &&
  isPyDigit (cs.getD 5 ' ') && isPyDigit (cs.getD 6 ' ') &&
  (cs.getD 7 ' ' == '-') &&
  isPyDigit (cs.getD 8 ' ') && isPyDigit (cs.getD 9 ' ') &&
  (cs.getD 10 ' ' == '_') &&
  isPyDigit (cs.getD 11 ' ') && isPyDigit (cs.getD 12 ' ') &&
  (cs.getD 13 ' ' == '-') &&
  isPyDigit (cs.getD 14 ' ') && isPyDigit (cs.getD 15 ' ')

/-- The ASCII-only reading of the snapshot pattern — digits restricted to
`0-9` — i.e. the set of names the Snapshot Namer can actually produce.
This is NOT what `STAMP_RE` matches (its `\d` takes any Unicode decimal
digit); it is kept to state how the two differ. -/
def asciiStampShape (cs : List Char) : Bool :=
  cs.length == 16 &&
  (cs.getD 0 ' ').isDigit && (cs.getD 1 ' ').isDigit &&
  (cs.getD 2 ' ').isDigit && (cs.getD 3 ' ').isDigit &&
  (cs.getD 4 ' ' == '-') &&
  (cs.getD 5 ' ').isDigit && (cs.getD 6 ' ').isDigit &&
  (cs.getD 7 ' ' == '-') &&
  (cs.getD 8 ' ').isDigit && (cs.getD 9 ' ').isDigit &&
  (cs.getD 10 ' ' == '_') &&
  (cs.getD 11 ' ').isDigit && (cs.getD 12 ' ').isDigit &&
  (cs.getD 13 ' ' == '-') &&
  (cs.getD 14 ' ').isDigit && (cs.getD 15 ' ').isDigit

/-- `STAMP_RE.match(name)` viewed as a Boolean: Python's `$` (with no
`re.MULTILINE`) matches at the end of the string or just before one
trailing newline, so `re.match` on the anchored pattern accepts the exact
shape and the exact shape followed by a single `'\n'`. -/
def stampReMatch (s : String) : Bool :=
  stampShape s.data ||
    (s.data.getLast? == some '\n' && stampShape s.data.dropLast)

/-- Gregorian leap-year test, as in CPython `datetime._is_leap`. -/
def isLeap (y : Nat) : Bool :=
  (y % 4 == 0 && y % 100 != 0) || y % 400 == 0

/-- Length of a month, as in CPython `datetime._days_in_month`. -/
def daysInMonth (y m : Nat) : Nat :=
  if m = 2 then (if isLeap y then 29 else 28)
  else if m = 4 ∨ m = 6 ∨ m = 9 ∨ m = 11 then 30
  else 31

/-- Days in the months strictly before month `m` of a non-leap year. -/
def daysBeforeMonthCommon (m : Nat) : Nat :=
  if m ≤ 1 then 0
  else if m = 2 then 31
  else if m = 3 then 59
  else if m = 4 then 90
  else if m = 5 then 120
  else if m = 6 then 151
  else if m = 7 then 181
  else if m = 8 then 212
  else if m = 9 then 243
  else if m = 10 then 273
  else if m = 11 then 304
  else 334

/-- Days in the months of year `y` strictly before month `m`
(CPython `datetime._days_before_month`). -/
def daysBeforeMonth (y m : Nat) : Nat :=
  daysBeforeMonthCommon m + (if 2 < m && isLeap y then 1 else 0)

/-- Days in the proleptic-Gregorian years strictly before year `y`
(CPython `datetime._days_before_year`). -/
def daysBeforeYear (y : Nat) : Nat :=
  let n := y - 1
  n * 365 + n / 4 - n / 100 + n / 400

/-- Proleptic-Gregorian ordinal of a date, day 1 being 0001-01-01
(CPython `datetime._ymd2ord`). -/
def toOrdinal (t : Stamp) : Nat :=
  daysBeforeYear t.year + daysBeforeMonth t.year t.month + t.day

/-- Absolute minute count of a stamp.  Comparing two valid `datetime`
values in Python agrees with comparing these counts, and subtracting a
`timedelta` of whole days shifts the count by `1440` per day. -/
def toMinutes (t : Stamp) : Nat :=
  toOrdinal t * 1440 + t.hour * 60 + t.minute

/-- The field ranges `datetime` accepts: this is exactly when
`dt.datetime(year, month, day, hour, minute)` — and hence `strptime` on a
shape-matching string — succeeds. -/
def validStamp (t : Stamp) : Bool :=
  1 ≤ t.year && t.year ≤ 9999 &&
  1 ≤ t.month && t.month ≤ 12 &&
  1 ≤ t.day && t.day ≤ daysInMonth t.year t.month &&
  t.hour ≤ 23 && t.minute ≤ 59

/-- Numeric value of an ASCII digit character. -/
def digitVal (c : Char) : Nat := c.toNat - 48

/-- `_strptime`'s `%m` on a two-digit field: `1[0-2]|0[1-9]` — both
characters ASCII (the single-digit alternative `[1-9]` cannot complete a
match here, since the literal separator after it would have to match the
field's second digit). -/
def monthRe (a b : Char) : Bool :=
  (a == '1' && (b == '0' || b == '1' || b == '2')) ||
    (a == '0' && ('1' ≤ b && b ≤ '9'))

/-- `_strptime`'s `%d` on a two-digit field: `3[01]|[12]\d|0[1-9]` — the
literals are ASCII, while `\d` after `[12]` accepts any Unicode digit
(verified: `"2020-01-1٢_00-00"` parses to day 12). -/
def dayRe (a b : Char) : Bool :=
  (a == '3' && (b == '0' || b == '1')) ||
    ((a == '1' || a == '2') && isPyDigit b) ||
    (a == '0' && ('1' ≤ b && b ≤ '9'))

/-- `_strptime`'s `%H` on a two-digit field: `2[0-3]|[0-1]\d`. -/
def hourRe (a b : Char) : Bool :=
  (a == '2' && ('0' ≤ b && b ≤ '3')) ||
    ((a == '0' || a == '1') && isPyDigit b)

/-- `_strptime`'s `%M` on a two-digit field: `[0-5]\d` (the bare-`\d`
alternative would leave the second digit unconsumed and fail the
whole-string check). -/
def minuteRe (a b : Char) : Bool :=
  ('0' ≤ a && a ≤ '5') && isPyDigit b

/-- `dt.datetime.strptime(s, "%Y-%m-%d_%H-%M")` as a partial function,
on the strings the program can reach it with: the 16-character
`STAMP_RE` digit shapes (what the pruner's guard passes, minus its
one-trailing-newline latitude — the newline would be left unconsumed and
raise `ValueError` "unconverted data remains") and `strftime` outputs
(four-digit years land in the shape; shorter years fail `%Y`'s
`\d\d\d\d` just as they fail the shape).  Within the shape, the fields
must match `_strptime`'s per-field regexes (`%Y` is `\d\d\d\d`, any
Unicode digits, converted by `int()`; see `monthRe`, `dayRe`, `hourRe`,
`minuteRe`), and the assembled values must pass the `datetime`
constructor's validation. -/
def parseStamp (s : String) : Option Stamp :=
  if stampShape s.data then
    let c := fun i => s.data.getD i ' '
    if monthRe (c 5) (c 6) && dayRe (c 8) (c 9) &&
        hourRe (c 11) (c 12) && minuteRe (c 14) (c 15) then
      let v := fun i => pyDigitVal (c i)
      let t : Stamp :=
        { year := v 0 * 1000 + v 1 * 100 + v 2 * 10 + v 3
          month := v 5 * 10 + v 6
          day := v 8 * 10 + v 9
          hour := v 11 * 10 + v 12
          minute := v 14 * 10 + v 15 }
      if validStamp t then some t else none
    else none
  else none

/-- `Nat.digitChar` restricted to one decimal digit. -/
def decDigit (n : Nat) : Char := Nat.digitChar (n % 10)

/-- Two-digit zero-padded decimal rendering (strftime `%m`, `%d`, `%H`,
`%M` on values below 100). -/
def pad2 (n : Nat) : List Char := [decDigit (n / 10), decDigit n]

/-- Four-digit decimal rendering, for years 1000-9999. -/
def pad4 (n : Nat) : List Char :=
  [decDigit (n / 1000), decDigit (n / 100), decDigit (n / 10), decDigit n]

/-- strftime `%Y` on the `datetime` year range 1-9999: the platform does
not zero-pad, so the year is rendered in plain decimal — one digit for
1-9 (verified: year 5 gives `"5"`), up to four for 1000-9999. -/
def fmtYear (y : Nat) : List Char :=
  if y < 10 then [decDigit y]
  else if y < 100 then [decDigit (y / 10), decDigit y]
  else if y < 1000 then [decDigit (y / 100), decDigit (y / 10), decDigit y]
  else pad4 y

/-- `timestamp_stamp()` — `dt.datetime.now().strftime("%Y-%m-%d_%H-%M")` —
applied to an explicit reading `t` of the clock, truncated to the
minute. -/
def timestamp_stamp (t : Stamp) : String :=
  ⟨fmtYear t.year ++ '-' :: pad2 t.month ++ '-' :: pad2 t.day ++
    '_' :: pad2 t.hour ++ '-' :: pad2 t.minute⟩

/-- The character list `timestamp_stamp` yields whenever the year has
four digits. -/
def stampCharsPadded (t : Stamp) : List Char :=
  pad4 t.year ++ '-' :: pad2 t.month ++ '-' :: pad2 t.day ++
    '_' :: pad2 t.hour ++ '-' :: pad2 t.minute

/-- A directory entry under the backup root: its name and whether it is a
directory (`child.name`, `child.is_dir()`). -/
structure Entry where
  name : String
  isDir : Bool
deriving DecidableEq, Repr

/-- `cutoff = dt.datetime.now() - dt.timedelta(days=retention_days)`, in
absolute minutes; `now` is the prune pass's clock reading and
`retention_days` is a Python `int`, so the cutoff may lie after `now`
when it is negative. -/
def pruneCutoff (now : Nat) (retention_days : Int) : Int :=
  (now : Int) - 1440 * retention_days

/-- The per-child test of `prune_old_backups`: the child is deleted iff it
is a directory, its name matches `STAMP_RE`, `strptime` parses the name,
and the parsed timestamp is strictly before the cutoff. -/
def pruneDeletes (e : Entry) (now : Nat) (retention_days : Int) : Bool :=
  e.isDir && stampReMatch e.name &&
    match parseStamp e.name with
    | none => false
    | some d => decide ((toMinutes d : Int) < pruneCutoff now retention_days)

/-- `prune_old_backups(root, retention_days)`: iterate over the children
of `root` and delete every child passing `pruneDeletes`; the result is
the list of deleted entries (deletion of one child never aborts the pass
over the others — `shutil.rmtree(..., ignore_errors=True)` and the
defensive `continue` on parse failure). -/
def prune_old_backups (children : List Entry) (now : Nat)
    (retention_days : Int) : List Entry :=
  children.filter (fun e => pruneDeletes e now retention_days)

/-- The environment one call of `run_once` observes: whether
`onedrive_path().exists()` holds and whether that path is a directory
(the code never asks the latter), the exit code `run_robocopy` would
return, the children of `backup_root` the prune pass would enumerate,
the clock reading `timestamp_stamp` formats and the clock reading (in
absolute minutes) `prune_old_backups` takes for `now`. -/
structure RunEnv where
  srcExists : Bool
  srcIsDir : Bool
  robocopyCode : Nat
  children : List Entry
  stampClock : Stamp
  pruneClock : Nat
deriving Repr

/-- Trace of one `run_once` call: the returned exit code, whether
robocopy was invoked, whether the destination snapshot folder was
created (`dst.mkdir` inside `run_robocopy`), whether `backup_root` was
created (`backup_root.mkdir`), the destination name when one was
computed, whether the prune pass ran, and what it deleted. -/
structure RunOutcome where
  exitCode : Nat
  mirrorInvoked : Bool
  destCreated : Bool
  rootCreated : Bool
  destName : Option String
  pruneInvoked : Bool
  deleted : List Entry
deriving Repr

/-- `run_once(backup_root, retention_days)`: if the source does not exist
return 1 at once; otherwise create the backup root, name the destination
after the current minute, run robocopy (which creates the destination),
and on a result below 8 prune and return 0, else return the robocopy
code. -/
def run_once (env : RunEnv) (retention_days : Int) : RunOutcome :=
  if !env.srcExists then
    { exitCode := 1, mirrorInvoked := false, destCreated := false
      rootCreated := false, destName := none, pruneInvoked := false
      deleted := [] }
  else
    let dst := timestamp_stamp env.stampClock
    let rc := env.robocopyCode
    if rc < 8 then
      { exitCode := 0, mirrorInvoked := true, destCreated := true
        rootCreated := true, destName := some dst, pruneInvoked := true
        deleted := prune_old_backups env.children env.pruneClock retention_days }
    else
      { exitCode := rc, mirrorInvoked := true, destCreated := true
        rootCreated := true, destName := some dst, pruneInvoked := false
        deleted := [] }

/-- `headless_run(backup_root, retention_days)` simply delegates to
`run_once`. -/
def headless_run (env : RunEnv) (retention_days : Int) : RunOutcome :=
  run_once env retention_days

/-- The dictionary `parse_args` builds. -/
structure Args where
  mode : String
  backup_root : String
  retention_days : Int
deriving Repr, DecidableEq

/-- `DEFAULT_BACKUP_ROOT`. -/
def DEFAULT_BACKUP_ROOT : String := "D:\\OneDriveBackup"

/-- `DEFAULT_RETENTION_DAYS`. -/
def DEFAULT_RETENTION_DAYS : Nat := 30

/-- Value of a non-empty all-digit character list. -/
def digitsVal : List Char → Option Nat
  | [] => none
  | cs => if cs.all Char.isDigit then
      some (cs.foldl (fun acc c => acc * 10 + digitVal c) 0)
    else none

/-- Python `int(s)` on an optionally signed decimal string (the forms the
program is ever handed; surrounding whitespace and underscore grouping
are not modelled): `none` is `ValueError`. -/
def pyInt (s : String) : Option Int :=
  match s.data with
  | '-' :: rest => (digitsVal rest).map (fun n => -(n : Int))
  | '+' :: rest => (digitsVal rest).map (fun n => (n : Int))
  | cs => (digitsVal cs).map (fun n => (n : Int))

/-- The scanning loop of `parse_args`: `--headless-run` consumes one
token; `--backup-root` and `--retention-days` consume two when a value
token follows (an invalid integer after `--retention-days` keeps the
default with a warning); anything else — including a trailing
`--backup-root` or `--retention-days` with no value after it — is
skipped one token at a time. -/
def parseArgsLoop : List String → Args → Args
  | [], a => a
  | "--headless-run" :: rest, a =>
      parseArgsLoop rest { a with mode := "headless" }
  | "--backup-root" :: v :: rest, a =>
      parseArgsLoop rest { a with backup_root := v }
  | "--retention-days" :: v :: rest, a =>
      (match pyInt v with
       | some n => parseArgsLoop rest { a with retention_days := n }
       | none => parseArgsLoop rest a)
  | _ :: rest, a => parseArgsLoop rest a

/-- `parse_args(argv)` with its defaults (`mode` "interactive",
`DEFAULT_BACKUP_ROOT`, `DEFAULT_RETENTION_DAYS`). -/
def parse_args (argv : List String) : Args :=
  parseArgsLoop argv
    { mode := "interactive", backup_root := DEFAULT_BACKUP_ROOT
      retention_days := (DEFAULT_RETENTION_DAYS : Int) }

/-- Python `str.isdigit()` on the ASCII strings at issue: non-empty and
all decimal digits (so a leading `-` already fails). -/
def pyIsdigit (s : String) : Bool :=
  !s.data.isEmpty && s.data.all Char.isDigit

/-- `prompt_int_with_default(prompt, default, min_value)` on an explicit
list of (already `.strip()`-ed) user input lines: an empty line returns
the default, an all-digit line with value at least `min_value` returns
that value, anything else re-prompts; `none` means the input lines ran
out while the code would still be looping. -/
def prompt_int_with_default (inputs : List String) (defaultValue : Nat)
    (min_value : Nat) : Option Nat :=
  match inputs with
  | [] => none
  | raw :: rest =>
    if raw = "" then some defaultValue
    else if pyIsdigit raw then
      match digitsVal raw.data with
      | some val =>
          if min_value ≤ val then some val
          else prompt_int_with_default rest defaultValue min_value
      | none => prompt_int_with_default rest defaultValue min_value
    else prompt_int_with_default rest defaultValue min_value

/-! ## Helper lemmas -/

theorem parseStamp_shape_of_some {s : String} {t : Stamp}
    (h : parseStamp s = some t) : stampShape s.data = true := by
  rw [parseStamp] at h
  split at h
  · assumption
  · cases h

theorem parseStamp_valid_of_some {s : String} {t : Stamp}
    (h : parseStamp s = some t) : validStamp t = true := by
  rw [parseStamp] at h
  split at h
  · dsimp only at h
    split at h
    · split at h
      · cases h; assumption
      · cases h
    · cases h
  · cases h

theorem stampReMatch_of_shape {s : String} (h : stampShape s.data = true) :
    stampReMatch s = true := by
  rw [stampReMatch, h, Bool.true_or]

/-- A non-directory child, or one whose name is not an exact
`YYYY-MM-DD_HH-MM` match, never passes the deletion test. -/
theorem pruneDeletes_eq_false_of_foreign {e : Entry} (now : Nat) (r : Int)
    (h : e.isDir = false ∨ stampShape e.name.data = false) :
    pruneDeletes e now r = false := by
  rw [pruneDeletes]
  rcases h with h | h
  · rw [h, Bool.false_and, Bool.false_and]
  · rcases hp : parseStamp e.name with - | t
    · simp
    · exact absurd (parseStamp_shape_of_some hp) (by rw [h]; exact Bool.false_ne_true)

theorem isPyDigit_digitChar_of_lt {k : Nat} (h : k < 10) :
    isPyDigit (Nat.digitChar k) = true := by
  interval_cases k <;> decide

theorem pyDigitVal_digitChar_of_lt {k : Nat} (h : k < 10) :
    pyDigitVal (Nat.digitChar k) = k := by
  interval_cases k <;> decide

theorem isPyDigit_decDigit (n : Nat) : isPyDigit (decDigit n) = true := by
  rw [decDigit]
  exact isPyDigit_digitChar_of_lt (Nat.mod_lt _ (by omega))

theorem pyDigitVal_decDigit (n : Nat) : pyDigitVal (decDigit n) = n % 10 := by
  rw [decDigit]
  exact pyDigitVal_digitChar_of_lt (Nat.mod_lt _ (by omega))

theorem daysInMonth_le (y m : Nat) : daysInMonth y m ≤ 31 := by
  rw [daysInMonth]
  split_ifs <;> omega

theorem monthRe_pad2 {m : Nat} (h1 : 1 ≤ m) (h2 : m ≤ 12) :
    monthRe (decDigit (m / 10)) (decDigit m) = true := by
  interval_cases m <;> decide

theorem dayRe_pad2 {d : Nat} (h1 : 1 ≤ d) (h2 : d ≤ 31) :
    dayRe (decDigit (d / 10)) (decDigit d) = true := by
  interval_cases d <;> decide

theorem hourRe_pad2 {h : Nat} (h2 : h ≤ 23) :
    hourRe (decDigit (h / 10)) (decDigit h) = true := by
  interval_cases h <;> decide

theorem minuteRe_pad2 {m : Nat} (h2 : m ≤ 59) :
    minuteRe (decDigit (m / 10)) (decDigit m) = true := by
  interval_cases m <;> decide

/-- A clock reading formatted with a four-digit year matches the anchored
stamp shape. -/
theorem stampShape_padded (t : Stamp) :
    stampShape (stampCharsPadded t) = true := by
  rw [stampShape]
  rw [show ((stampCharsPadded t).length == 16) = true from rfl,
    show ((stampCharsPadded t).getD 4 ' ' == '-') = true from rfl,
    show ((stampCharsPadded t).getD 7 ' ' == '-') = true from rfl,
    show ((stampCharsPadded t).getD 10 ' ' == '_') = true from rfl,
    show ((stampCharsPadded t).getD 13 ' ' == '-') = true from rfl,
    show (stampCharsPadded t).getD 0 ' ' = decDigit (t.year / 1000) from rfl,
    show (stampCharsPadded t).getD 1 ' ' = decDigit (t.year / 100) from rfl,
    show (stampCharsPadded t).getD 2 ' ' = decDigit (t.year / 10) from rfl,
    show (stampCharsPadded t).getD 3 ' ' = decDigit t.year from rfl,
    show (stampCharsPadded t).getD 5 ' ' = decDigit (t.month / 10) from rfl,
    show (stampCharsPadded t).getD 6 ' ' = decDigit t.month from rfl,
    show (stampCharsPadded t).getD 8 ' ' = decDigit (t.day / 10) from rfl,
    show (stampCharsPadded t).getD 9 ' ' = decDigit t.day from rfl,
    show (stampCharsPadded t).getD 11 ' ' = decDigit (t.hour / 10) from rfl,
    show (stampCharsPadded t).getD 12 ' ' = decDigit t.hour from rfl,
    show (stampCharsPadded t).getD 14 ' ' = decDigit (t.minute / 10) from rfl,
    show (stampCharsPadded t).getD 15 ' ' = decDigit t.minute from rfl]
  simp [isPyDigit_decDigit]

theorem fmtYear_eq_pad4 {y : Nat} (hy : 1000 ≤ y) : fmtYear y = pad4 y := by
  rw [fmtYear, if_neg (by omega), if_neg (by omega), if_neg (by omega)]

theorem timestamp_stamp_eq_padded (t : Stamp) (hy : 1000 ≤ t.year) :
    timestamp_stamp t = ⟨stampCharsPadded t⟩ := by
  rw [timestamp_stamp, stampCharsPadded, fmtYear_eq_pad4 hy]

theorem recompose4 {n : Nat} (h : n ≤ 9999) :
    n / 1000 % 10 * 1000 + n / 100 % 10 * 100 + n / 10 % 10 * 10 + n % 10 = n := by
  omega

theorem recompose2 {n : Nat} (h : n ≤ 99) :
    n / 10 % 10 * 10 + n % 10 = n := by
  omega

/-- On the padded 16-character rendering, parsing inverts formatting. -/
theorem parseStamp_padded (t : Stamp) (h : validStamp t = true) :
    parseStamp ⟨stampCharsPadded t⟩ = some t := by
  have hv := h
  rw [validStamp] at hv
  simp only [Bool.and_eq_true, decide_eq_true_eq] at hv
  obtain ⟨⟨⟨⟨⟨⟨⟨hy1, hy2⟩, hm1⟩, hm2⟩, hd1⟩, hd2⟩, hh⟩, hmi⟩ := hv
  have hd31 : t.day ≤ 31 := le_trans hd2 (daysInMonth_le t.year t.month)
  have hdata : (⟨stampCharsPadded t⟩ : String).data = stampCharsPadded t := rfl
  rw [parseStamp, hdata, if_pos (stampShape_padded t)]
  dsimp only
  rw [show (stampCharsPadded t).getD 0 ' ' = decDigit (t.year / 1000) from rfl,
    show (stampCharsPadded t).getD 1 ' ' = decDigit (t.year / 100) from rfl,
    show (stampCharsPadded t).getD 2 ' ' = decDigit (t.year / 10) from rfl,
    show (stampCharsPadded t).getD 3 ' ' = decDigit t.year from rfl,
    show (stampCharsPadded t).getD 5 ' ' = decDigit (t.month / 10) from rfl,
    show (stampCharsPadded t).getD 6 ' ' = decDigit t.month from rfl,
    show (stampCharsPadded t).getD 8 ' ' = decDigit (t.day / 10) from rfl,
    show (stampCharsPadded t).getD 9 ' ' = decDigit t.day from rfl,
    show (stampCharsPadded t).getD 11 ' ' = decDigit (t.hour / 10) from rfl,
    show (stampCharsPadded t).getD 12 ' ' = decDigit t.hour from rfl,
    show (stampCharsPadded t).getD 14 ' ' = decDigit (t.minute / 10) from rfl,
    show (stampCharsPadded t).getD 15 ' ' = decDigit t.minute from rfl]
  rw [monthRe_pad2 hm1 hm2, dayRe_pad2 hd1 hd31, hourRe_pad2 hh,
    minuteRe_pad2 hmi]
  rw [if_pos (show (((true && true) && true) && true) = true from rfl)]
  simp only [pyDigitVal_decDigit]
  rw [recompose4 hy2, recompose2 (le_trans hm2 (by omega)),
    recompose2 (le_trans hd2 (le_trans (daysInMonth_le t.year t.month) (by omega))),
    recompose2 (le_trans hh (by omega)), recompose2 (le_trans hmi (by omega))]
  rw [show (⟨t.year, t.month, t.day, t.hour, t.minute⟩ : Stamp) = t from rfl]
  rw [if_pos h]

/-- Formatting a representable minute-granular instant with a four-digit
year and re-parsing it recovers the instant (shared by the round-trip
and the fresh-folder claims). -/
theorem parse_format_roundtrip (t : Stamp) (h : validStamp t = true)
    (hy4 : 1000 ≤ t.year) :
    parseStamp (timestamp_stamp t) = some t := by
  rw [timestamp_stamp_eq_padded t hy4]
  exact parseStamp_padded t h

/-- With a year below 1000 the unpadded `%Y` makes the rendering shorter
than 16 characters, so it fails the stamp shape — and the program's
`strptime`, whose `%Y` wants four digits, likewise raises. -/
theorem parseStamp_timestamp_small (t : Stamp) (hy : t.year < 1000) :
    parseStamp (timestamp_stamp t) = none := by
  have hflen : (fmtYear t.year).length ≤ 3 := by
    rw [fmtYear]
    split_ifs
    · show (1 : Nat) ≤ 3
      omega
    · show (2 : Nat) ≤ 3
      omega
    · show (3 : Nat) ≤ 3
      omega
  have hlen : (timestamp_stamp t).data.length ≤ 15 := by
    rw [show (timestamp_stamp t).data = fmtYear t.year ++ '-' :: pad2 t.month ++
      '-' :: pad2 t.day ++ '_' :: pad2 t.hour ++ '-' :: pad2 t.minute from rfl]
    simp only [List.length_append, pad2, List.length_cons, List.length_nil]
    omega
  have hshape : stampShape (timestamp_stamp t).data = false := by
    rw [stampShape]
    rw [show ((timestamp_stamp t).data.length == 16) = false by
      simp only [beq_eq_false_iff_ne, ne_eq]
      omega]
    simp
  rw [parseStamp, if_neg (by simp [hshape])]

/-- `m ≤` every value `prompt_int_with_default` can return when the
default itself clears the minimum. -/
theorem prompt_int_min {inputs : List String} {d m v : Nat}
    (hd : m ≤ d) (h : prompt_int_with_default inputs d m = some v) :
    m ≤ v := by
  induction inputs with
  | nil =>
    rw [prompt_int_with_default] at h
    cases h
  | cons raw rest ih =>
    rw [prompt_int_with_default] at h
    split at h
    · cases h
      exact hd
    · split at h
      · split at h
        · split at h
          · cases h
            assumption
          · exact ih h
        · exact ih h
      · exact ih h

/-! ## Claim theorems -/

/-- What foreign-name safety the code does give: a child that is not a
directory, or whose name fails `STAMP_RE`'s shape with `\d` read as any
Unicode decimal digit, is never deleted, for every clock reading and
every `retention_days`. -/
theorem prune_preserves_foreign (children : List Entry) (now : Nat)
    (r : Int) (e : Entry) (hmem : e ∈ children)
    (h : e.isDir = false ∨ stampShape e.name.data = false) :
    e ∉ prune_old_backups children now r := by
  intro hdel
  rw [prune_old_backups, List.mem_filter] at hdel
  exact absurd hdel.2
    (by rw [pruneDeletes_eq_false_of_foreign now r h]; exact Bool.false_ne_true)

theorem prune_preserves_foreign_example :
    (⟨"MyImportantData", true⟩ : Entry) ∉
      prune_old_backups
        [⟨"MyImportantData", true⟩, ⟨"2020-01-01_00-00", true⟩]
        1064932410 30 :=
  prune_preserves_foreign _ _ _ _ (by decide) (Or.inr (by decide))

/-- C1: the claim fails on the code, which contradicts its own "we only
touch folders we created, not user data" comment.  A user directory
named `"٢٠٢٠-01-01_00-00"` (Arabic-Indic year digits) is not a name the
Namer can produce and does not match the ASCII reading of the
`YYYY-MM-DD_HH-MM` pattern, yet `STAMP_RE`'s `\d` (no `re.ASCII`)
matches it, `strptime` parses it to 2020-01-01 00:00, and the prune pass
deletes it (clock 2025-10-12 09:30, retention 30 days). -/
theorem prune_unicode_digit_bug :
    asciiStampShape "٢٠٢٠-01-01_00-00".data = false ∧
      parseStamp "٢٠٢٠-01-01_00-00" = some ⟨2020, 1, 1, 0, 0⟩ ∧
      (⟨"٢٠٢٠-01-01_00-00", true⟩ : Entry) ∈
        prune_old_backups [⟨"٢٠٢٠-01-01_00-00", true⟩] 1064932410 30 := by
  decide

/-- C2: with an existing source, a mirror result below 8 makes `run_once`
report success (exit code 0) and run the prune pass over the backup
root's children, while a result of 8 or more skips pruning and is
returned unchanged. -/
theorem run_once_success_threshold (env : RunEnv) (r : Int)
    (hsrc : env.srcExists = true) :
    (env.robocopyCode < 8 →
        (run_once env r).exitCode = 0 ∧
        (run_once env r).pruneInvoked = true ∧
        (run_once env r).deleted =
          prune_old_backups env.children env.pruneClock r) ∧
      (8 ≤ env.robocopyCode →
        (run_once env r).pruneInvoked = false ∧
        (run_once env r).deleted = [] ∧
        (run_once env r).exitCode = env.robocopyCode) := by
  constructor
  · intro h
    simp [run_once, hsrc, h]
  · intro h
    have h8 : ¬ env.robocopyCode < 8 := by omega
    simp [run_once, hsrc, h8]

theorem run_once_success_threshold_witness :
    (run_once ⟨true, true, 3, [], ⟨2025, 1, 1, 0, 0⟩, 0⟩ 30).exitCode = 0 ∧
      (run_once ⟨true, true, 3, [], ⟨2025, 1, 1, 0, 0⟩, 0⟩ 30).pruneInvoked = true ∧
      (run_once ⟨true, true, 9, [], ⟨2025, 1, 1, 0, 0⟩, 0⟩ 30).exitCode = 9 ∧
      (run_once ⟨true, true, 9, [], ⟨2025, 1, 1, 0, 0⟩, 0⟩ 30).pruneInvoked = false := by
  have h3 := run_once_success_threshold ⟨true, true, 3, [], ⟨2025, 1, 1, 0, 0⟩, 0⟩ 30 rfl
  have h9 := run_once_success_threshold ⟨true, true, 9, [], ⟨2025, 1, 1, 0, 0⟩, 0⟩ 30 rfl
  exact ⟨(h3.1 (by decide)).1, (h3.1 (by decide)).2.1,
    (h9.2 (by decide)).2.2, (h9.2 (by decide)).1⟩

/-- C3: a snapshot-named directory under the backup root is deleted by
the prune pass exactly when its parsed timestamp lies strictly before
`now - retention_days` days; at the cutoff itself it is kept. -/
theorem prune_retention_boundary (children : List Entry) (now : Nat)
    (r : Int) (e : Entry) (t : Stamp) (hmem : e ∈ children)
    (hdir : e.isDir = true) (hparse : parseStamp e.name = some t) :
    e ∈ prune_old_backups children now r ↔
      (toMinutes t : Int) < pruneCutoff now r := by
  have hre := stampReMatch_of_shape (parseStamp_shape_of_some hparse)
  rw [prune_old_backups, List.mem_filter]
  constructor
  · rintro ⟨-, hdel⟩
    rw [pruneDeletes, hparse] at hdel
    simpa [hdir, hre] using hdel
  · intro hlt
    refine ⟨hmem, ?_⟩
    rw [pruneDeletes, hparse]
    simp [hdir, hre, hlt]

theorem prune_retention_boundary_witness :
    (⟨"2025-10-05_09-30", true⟩ : Entry) ∉
        prune_old_backups
          [⟨"2025-10-05_09-30", true⟩, ⟨"2025-10-05_09-29", true⟩]
          1064932410 7 ∧
      (⟨"2025-10-05_09-29", true⟩ : Entry) ∈
        prune_old_backups
          [⟨"2025-10-05_09-30", true⟩, ⟨"2025-10-05_09-29", true⟩]
          1064932410 7 := by
  have hkeep := prune_retention_boundary
    [⟨"2025-10-05_09-30", true⟩, ⟨"2025-10-05_09-29", true⟩] 1064932410 7
    ⟨"2025-10-05_09-30", true⟩ ⟨2025, 10, 5, 9, 30⟩ (by decide) rfl (by decide)
  have hdel := prune_retention_boundary
    [⟨"2025-10-05_09-30", true⟩, ⟨"2025-10-05_09-29", true⟩] 1064932410 7
    ⟨"2025-10-05_09-29", true⟩ ⟨2025, 10, 5, 9, 29⟩ (by decide) rfl (by decide)
  exact ⟨fun hm => absurd (hkeep.mp hm) (by decide), hdel.mpr (by decide)⟩

/-- C5 (amended): when the source path does not exist, `run_once` returns
1 at once: the mirror tool is not invoked, no destination name is even
computed, and neither the destination folder nor the backup root is
created. -/
theorem run_once_missing_source (env : RunEnv) (r : Int)
    (h : env.srcExists = false) :
    (run_once env r).exitCode = 1 ∧
      (run_once env r).mirrorInvoked = false ∧
      (run_once env r).destCreated = false ∧
      (run_once env r).rootCreated = false ∧
      (run_once env r).destName = none := by
  simp [run_once, h]

theorem run_once_missing_source_witness :
    (run_once ⟨false, false, 0, [], ⟨2025, 1, 1, 0, 0⟩, 0⟩ 30).exitCode = 1 ∧
      (run_once ⟨false, false, 0, [], ⟨2025, 1, 1, 0, 0⟩, 0⟩ 30).mirrorInvoked = false ∧
      (run_once ⟨false, false, 0, [], ⟨2025, 1, 1, 0, 0⟩, 0⟩ 30).destCreated = false ∧
      (run_once ⟨false, false, 0, [], ⟨2025, 1, 1, 0, 0⟩, 0⟩ 30).rootCreated = false ∧
      (run_once ⟨false, false, 0, [], ⟨2025, 1, 1, 0, 0⟩, 0⟩ 30).destName = none :=
  run_once_missing_source ⟨false, false, 0, [], ⟨2025, 1, 1, 0, 0⟩, 0⟩ 30 rfl

/-- C5 counterexample to the claim as stated: a source that exists but is
not a directory passes the code's `src.exists()` check, so the mirror IS
invoked and the exit code is not 1. -/
theorem run_once_nondir_source_counterexample :
    (⟨true, false, 0, [], ⟨2025, 1, 1, 0, 0⟩, 0⟩ : RunEnv).srcIsDir = false ∧
      (run_once ⟨true, false, 0, [], ⟨2025, 1, 1, 0, 0⟩, 0⟩ 30).mirrorInvoked = true ∧
      (run_once ⟨true, false, 0, [], ⟨2025, 1, 1, 0, 0⟩, 0⟩ 30).exitCode = 0 := by
  refine ⟨rfl, rfl, rfl⟩

/-- C6: a snapshot-shaped name with out-of-range calendar fields matches
`STAMP_RE` but fails `strptime`, so the prune pass skips the directory —
it is not deleted and the remaining children are processed exactly as if
it were absent. -/
theorem prune_defensive_parse (e : Entry) (now : Nat) (r : Int)
    (hm : stampReMatch e.name = true) (hp : parseStamp e.name = none) :
    pruneDeletes e now r = false ∧
      ∀ children : List Entry,
        prune_old_backups (e :: children) now r =
          prune_old_backups children now r := by
  have hd : pruneDeletes e now r = false := by
    rw [pruneDeletes, hp]
    simp
  exact ⟨hd, fun children => by
    rw [prune_old_backups, prune_old_backups, List.filter_cons, hd]
    simp⟩

theorem prune_defensive_parse_witness :
    pruneDeletes ⟨"2025-13-40_25-99", true⟩ 1064932410 7 = false ∧
      prune_old_backups
          [⟨"2025-13-40_25-99", true⟩, ⟨"2025-01-01_00-00", true⟩]
          1064932410 7 =
        prune_old_backups [⟨"2025-01-01_00-00", true⟩] 1064932410 7 := by
  have h := prune_defensive_parse ⟨"2025-13-40_25-99", true⟩ 1064932410 7
    (by decide) (by decide)
  exact ⟨h.1, h.2 _⟩

/-- C4 counterexample to the claim as stated: on a successful cycle the
headless entry point returns 0, not the mirror tool's own code — here the
mirror returns 1 (files copied) and the exit status is 0. -/
theorem headless_exit_code_counterexample :
    (⟨true, true, 1, [], ⟨2025, 1, 1, 0, 0⟩, 0⟩ : RunEnv).robocopyCode = 1 ∧
      (headless_run ⟨true, true, 1, [], ⟨2025, 1, 1, 0, 0⟩, 0⟩ 30).exitCode = 0 :=
  ⟨rfl, rfl⟩

/-- C4 (amended): the headless entry point runs one cycle and exits with
1 when the source is missing, 0 for any successful cycle (mirror code
below 8, whatever informational flags are set), and the mirror code
unchanged when it is 8 or more. -/
theorem headless_exit_codes (env : RunEnv) (r : Int) :
    (env.srcExists = false →
        (headless_run env r).exitCode = 1 ∧
          (headless_run env r).mirrorInvoked = false) ∧
      (env.srcExists = true → env.robocopyCode < 8 →
        (headless_run env r).exitCode = 0) ∧
      (env.srcExists = true → 8 ≤ env.robocopyCode →
        (headless_run env r).exitCode = env.robocopyCode) := by
  refine ⟨fun h => ?_, fun hs hrc => ?_, fun hs hrc => ?_⟩
  · simp [headless_run, run_once, h]
  · simp [headless_run, run_once, hs, hrc]
  · have h8 : ¬ env.robocopyCode < 8 := by omega
    simp [headless_run, run_once, hs, h8]

theorem headless_exit_codes_witness :
    (headless_run ⟨false, true, 0, [], ⟨2025, 1, 1, 0, 0⟩, 0⟩ 30).exitCode = 1 ∧
      (headless_run ⟨true, true, 5, [], ⟨2025, 1, 1, 0, 0⟩, 0⟩ 30).exitCode = 0 ∧
      (headless_run ⟨true, true, 16, [], ⟨2025, 1, 1, 0, 0⟩, 0⟩ 30).exitCode = 16 :=
  ⟨((headless_exit_codes ⟨false, true, 0, [], ⟨2025, 1, 1, 0, 0⟩, 0⟩ 30).1 rfl).1,
    (headless_exit_codes ⟨true, true, 5, [], ⟨2025, 1, 1, 0, 0⟩, 0⟩ 30).2.1 rfl
      (by decide),
    (headless_exit_codes ⟨true, true, 16, [], ⟨2025, 1, 1, 0, 0⟩, 0⟩ 30).2.2 rfl
      (by decide)⟩

/-- C7 counterexample to the claim as stated: the recognizer accepts the
exact pattern, but also still accepts it after appending a trailing
newline (Python `$` matches just before one final `"\n"`), so not every
appended character is rejected. -/
theorem stamp_match_trailing_newline_counterexample :
    stampReMatch "2025-01-05_09-00" = true ∧
      stampReMatch "2025-01-05_09-00\n" = true ∧
      stampReMatch "٢٠٢٠-01-01_00-00" = true ∧
      stampReMatch "2025-1-5_09-00" = false := by
  decide

/-- C7 (amended): the recognizer returns true exactly on strings of the
shape 4 digits, `-`, 2 digits, `-`, 2 digits, `_`, 2 digits, `-`,
2 digits with nothing else — a digit being any Unicode decimal digit,
which is what Python's `\d` matches — or such a string with one trailing
newline appended. -/
theorem stamp_match_characterization (s : String) :
    stampReMatch s = true ↔
      stampShape s.data = true ∨
        ∃ cs : List Char, stampShape cs = true ∧ s.data = cs ++ ['\n'] := by
  rw [stampReMatch]
  simp only [Bool.or_eq_true, Bool.and_eq_true, beq_iff_eq]
  constructor
  · rintro (h | ⟨hlast, hshape⟩)
    · exact Or.inl h
    · refine Or.inr ⟨s.data.dropLast, hshape, ?_⟩
      rcases List.eq_nil_or_concat s.data with hnil | ⟨l, a, hl⟩
      · rw [hnil] at hlast
        cases hlast
      · rw [List.concat_eq_append] at hl
        rw [hl, List.getLast?_concat] at hlast
        rw [hl, List.dropLast_concat, Option.some.inj hlast]
  · rintro (h | ⟨cs, hcs, hdata⟩)
    · exact Or.inl h
    · refine Or.inr ⟨?_, ?_⟩
      · rw [hdata, List.getLast?_concat]
      · rw [hdata, List.dropLast_concat]
        exact hcs

theorem stamp_match_characterization_witness :
    stampReMatch "2025-01-05_09-00" = true :=
  (stamp_match_characterization "2025-01-05_09-00").mpr (Or.inl (by decide))

/-- C8 counterexample to the claim as stated: the platform `strftime`
does not zero-pad `%Y`, so the valid minute-truncated instant
0005-01-01 00:00 formats as `"5-01-01_00-00"`, which `strptime` (whose
`%Y` wants four digits) then fails to parse — the round-trip does not
hold at this instant. -/
theorem timestamp_roundtrip_counterexample :
    validStamp ⟨5, 1, 1, 0, 0⟩ = true ∧
      timestamp_stamp ⟨5, 1, 1, 0, 0⟩ = "5-01-01_00-00" ∧
      parseStamp (timestamp_stamp ⟨5, 1, 1, 0, 0⟩) = none := by
  decide

/-- C8 (amended): for every minute-truncated instant whose year has four
digits (1000-9999), formatting with `"%Y-%m-%d_%H-%M"` and parsing the
result back with the same format yields the instant exactly; for years
below 1000 the unpadded `%Y` output fails to re-parse. -/
theorem timestamp_roundtrip (t : Stamp) (h : validStamp t = true) :
    (1000 ≤ t.year → parseStamp (timestamp_stamp t) = some t) ∧
      (t.year < 1000 → parseStamp (timestamp_stamp t) = none) :=
  ⟨parse_format_roundtrip t h, parseStamp_timestamp_small t⟩

theorem timestamp_roundtrip_witness :
    parseStamp (timestamp_stamp ⟨2025, 10, 5, 9, 30⟩) =
        some ⟨2025, 10, 5, 9, 30⟩ ∧
      parseStamp (timestamp_stamp ⟨5, 1, 1, 0, 0⟩) = none :=
  ⟨(timestamp_roundtrip ⟨2025, 10, 5, 9, 30⟩ (by decide)).1 (by decide),
    (timestamp_roundtrip ⟨5, 1, 1, 0, 0⟩ (by decide)).2 (by decide)⟩

/-- C9 counterexample to the claim as stated: the prune pass reads the
clock again after the mirror step, which may take arbitrarily long; here
the prune clock reads two days after the stamped minute with
`retention_days = 1`, and the cycle's own fresh folder is deleted by the
same cycle's prune pass. -/
theorem fresh_folder_pruned_counterexample :
    (⟨timestamp_stamp ⟨2025, 1, 1, 0, 0⟩, true⟩ : Entry) ∈
      (run_once ⟨true, true, 0, [⟨timestamp_stamp ⟨2025, 1, 1, 0, 0⟩, true⟩],
        ⟨2025, 1, 1, 0, 0⟩, toMinutes ⟨2025, 1, 1, 0, 0⟩ + 2880⟩ 1).deleted := by
  decide

/-- C9 (amended): the snapshot folder named at the start of a cycle is
not eligible for deletion by that cycle's prune pass — in particular for
any `retention_days ≥ 1` — provided the prune pass's clock reading is at
most `retention_days` days after the stamped minute (the mirror step
between the two clock reads is what could violate this). -/
theorem fresh_folder_not_pruned (env : RunEnv) (r : Int)
    (hv : validStamp env.stampClock = true)
    (hclock : (env.pruneClock : Int) ≤ toMinutes env.stampClock + 1440 * r) :
    pruneDeletes ⟨timestamp_stamp env.stampClock, true⟩ env.pruneClock r = false ∧
      (⟨timestamp_stamp env.stampClock, true⟩ : Entry) ∉
        (run_once env r).deleted := by
  have hfalse : pruneDeletes ⟨timestamp_stamp env.stampClock, true⟩
      env.pruneClock r = false := by
    by_cases hy4 : 1000 ≤ env.stampClock.year
    · have hparse := parse_format_roundtrip env.stampClock hv hy4
      have hlt : ¬ ((toMinutes env.stampClock : Int) <
          pruneCutoff env.pruneClock r) := by
        rw [pruneCutoff]
        omega
      rw [pruneDeletes]
      dsimp only
      rw [hparse]
      simp [hlt]
    · have hparse := parseStamp_timestamp_small env.stampClock (by omega)
      rw [pruneDeletes]
      dsimp only
      rw [hparse]
      simp
  refine ⟨hfalse, fun hmem => ?_⟩
  cases hsrc : env.srcExists with
  | false => simp [run_once, hsrc] at hmem
  | true =>
    by_cases hrc : env.robocopyCode < 8
    · rw [run_once] at hmem
      simp only [hsrc, Bool.not_true, Bool.false_eq_true, if_false,
        if_pos hrc] at hmem
      rw [prune_old_backups, List.mem_filter] at hmem
      exact absurd hmem.2 (by rw [hfalse]; exact Bool.false_ne_true)
    · simp [run_once, hsrc, hrc] at hmem

theorem fresh_folder_not_pruned_witness :
    pruneDeletes ⟨timestamp_stamp ⟨2025, 1, 1, 0, 0⟩, true⟩
        (toMinutes ⟨2025, 1, 1, 0, 0⟩) 1 = false ∧
      (⟨timestamp_stamp ⟨2025, 1, 1, 0, 0⟩, true⟩ : Entry) ∉
        (run_once ⟨true, true, 0, [⟨timestamp_stamp ⟨2025, 1, 1, 0, 0⟩, true⟩],
          ⟨2025, 1, 1, 0, 0⟩, toMinutes ⟨2025, 1, 1, 0, 0⟩⟩ 1).deleted :=
  fresh_folder_not_pruned
    ⟨true, true, 0, [⟨timestamp_stamp ⟨2025, 1, 1, 0, 0⟩, true⟩],
      ⟨2025, 1, 1, 0, 0⟩, toMinutes ⟨2025, 1, 1, 0, 0⟩⟩ 1
    (by decide) (by decide)

/-- C10: the headless argument path accepts any integer string for
`--retention-days` — zero and negatives included — and the parsed value
flows into the prune cutoff `now - retention_days` days unchanged,
whereas the interactive prompt (called with `min_value = 1`) can only
ever return a value of at least 1. -/
theorem retention_days_unbounded (root s : String) (n : Int)
    (h : pyInt s = some n) :
    (parse_args ["--headless-run", "--backup-root", root,
        "--retention-days", s]).retention_days = n ∧
      (∀ now : Nat,
        pruneCutoff now (parse_args ["--headless-run", "--backup-root", root,
            "--retention-days", s]).retention_days =
          (now : Int) - 1440 * n) ∧
      ∀ (inputs : List String) (v : Nat),
        prompt_int_with_default inputs 30 1 = some v → 1 ≤ v := by
  have hp : (parse_args ["--headless-run", "--backup-root", root,
      "--retention-days", s]).retention_days = n := by
    simp [parse_args, parseArgsLoop, h]
  exact ⟨hp, fun now => by rw [hp, pruneCutoff], fun inputs v hv =>
    prompt_int_min (by omega) hv⟩

theorem retention_days_unbounded_witness :
    (parse_args ["--headless-run", "--backup-root", "D:\\B",
        "--retention-days", "-5"]).retention_days = -5 ∧
      (parse_args ["--headless-run", "--backup-root", "D:\\B",
        "--retention-days", "0"]).retention_days = 0 ∧
      pruneCutoff 1000000 (parse_args ["--headless-run", "--backup-root", "D:\\B",
        "--retention-days", "-5"]).retention_days = 1000000 + 1440 * 5 := by
  have h5 := retention_days_unbounded "D:\\B" "-5" (-5) (by decide)
  have h0 := retention_days_unbounded "D:\\B" "0" 0 (by decide)
  refine ⟨h5.1, h0.1, ?_⟩
  rw [h5.2.1 1000000]
  decide

end OneDriveBackup
